import Mathlib

/-!
Verification of `src/python/flatbuffers/vector.py` (vector accessor classes).

Shallow embedding: each Python class becomes a Lean structure, each method a
Lean function.  Python exceptions become `Except PyErr`; statefulness is made
explicit by returning the (possibly updated) object alongside the result.
Python integers are unbounded, so they are modelled by `Int`; indices coming
from a Python call site can be any object, modelled by `PyIndex` (Python's
`bool` is a subtype of `int`, which `PyIndex.isInstInt` reflects).
The foreign `flatbuffers.Table` collaborator is modelled as a record of the
pure read functions the accessor consumes (`VectorLen`, `Vector`, `Get`,
`String`, `Bytes`); table reads performed during construction are logged as
`TableCall` values so that "reads the length exactly once" is statable.
-/

/-- A Python exception value, restricted to the kinds this module can raise. -/
inductive PyErr where
  | typeError (msg : String)
  | indexError (msg : String)
  | nameError (missing : String)
  | stopIteration
  | notImplementedError
  deriving Repr, DecidableEq

/-- Flags object (e.g. `number_types.Uint32Flags`): carries the byte width
used by `SimpleVectorAccessor` as the stride and passed to `Table.Get`. -/
structure Flags where
  bytewidth : Nat
  deriving Repr, DecidableEq

/-- A value produced by an accessor: a decoded scalar, a zero-copy struct
view (identified by its struct class together with the aliased bytes and
position), or a materialized string. -/
inductive Value where
  | scalar (n : Int)
  | structView (struct_class : Nat) (bytes : List Nat) (pos : Int)
  | str (s : String)
  deriving Repr, DecidableEq

/-- The external `flatbuffers.Table` collaborator, modelled as the pure read
interface the accessors consume.  The backing buffer is immutable, so each
primitive is a function of the offset alone. -/
structure Table where
  vectorLen : Int → Nat
  vector : Int → Int
  get : Flags → Int → Int
  string_at : Int → String
  bytes : List Nat

/-- A logged call to one of the table primitives. -/
inductive TableCall where
  | vectorLenCall (offset : Int)
  | vectorCall (offset : Int)
  | getCall (offset : Int)
  | stringCall (offset : Int)
  deriving Repr, DecidableEq

/-- An index value supplied by a Python caller to `__getitem__`: a genuine
`int`, a `bool` (which `isinstance(-, int)` accepts, since `bool` subclasses
`int`), or any other object, carried with its type name for the error
message. -/
inductive PyIndex where
  | int (n : Int)
  | bool (b : Bool)
  | other (typeName : String)
  deriving Repr, DecidableEq

/-- Python's `isinstance(index, int)`: true for `int` and for `bool`. -/
def PyIndex.isInstInt : PyIndex → Bool
  | .int _ => true
  | .bool _ => true
  | .other _ => false

/-- The numeric value an integral index contributes to comparisons and
arithmetic (`True` behaves as `1`, `False` as `0`).  Unused for `other`. -/
def PyIndex.toInt : PyIndex → Int
  | .int n => n
  | .bool b => if b then 1 else 0
  | .other _ => 0

/-- Python's `type(index).__name__` for the `TypeError` message. -/
def PyIndex.typeName : PyIndex → String
  | .int _ => "int"
  | .bool _ => "bool"
  | .other t => t

/-- Which `_unpack` implementation the accessor object carries: the base
class (whose `_unpack` raises `NotImplementedError`), `StructVectorAccessor`
(holding `_struct_class`), `SimpleVectorAccessor` (holding `_flags`), or
`StringVectorAccessor`. -/
inductive Variant where
  | base
  | structV (struct_class : Nat)
  | simple (flags : Flags)
  | stringV
  deriving Repr, DecidableEq

/-- State of a `VectorAccessor` object: slots `_table`, `_offset`, `_length`,
`_stride`, plus the variant tag standing for the object's dynamic class. -/
structure VectorAccessor where
  table : Table
  offset : Int
  length : Nat
  stride : Nat
  variant : Variant

/-- `VectorAccessor.__init__(self, table, offset, stride)`: stores the
table, offset and stride, and reads `self._length = table.VectorLen(offset)`.
The returned list logs the table calls the body performs: exactly the one
`VectorLen` read. -/
def VectorAccessor.init (table : Table) (offset : Int) (stride : Nat)
    (variant : Variant) : VectorAccessor × List TableCall :=
  ({ table := table, offset := offset, length := table.vectorLen offset,
     stride := stride, variant := variant },
   [TableCall.vectorLenCall offset])

/-- `_unpack(self, offset)`, dispatched on the object's class: the base class
raises `NotImplementedError`; `StructVectorAccessor._unpack` builds a struct
view over `self._table.Bytes` at `offset`; `SimpleVectorAccessor._unpack`
returns `self._table.Get(self._flags, offset)`; `StringVectorAccessor._unpack`
returns `self._table.String(offset)`. -/
def VectorAccessor.unpack (v : VectorAccessor) (offset : Int) :
    Except PyErr Value :=
  match v.variant with
  | .base => Except.error PyErr.notImplementedError
  | .structV c => Except.ok (Value.structView c v.table.bytes offset)
  | .simple flags => Except.ok (Value.scalar (v.table.get flags offset))
  | .stringV => Except.ok (Value.str (v.table.string_at offset))

/-- `VectorAccessor.__getitem__(self, index)`: raises `TypeError` when
`isinstance(index, int)` fails, raises `IndexError` when
`index < 0 or index >= self._length`, otherwise computes
`a = self._table.Vector(self._offset) + index * self._stride` and returns
`self._unpack(a)`.  The method assigns to no attribute, so the object is
returned unchanged alongside the result. -/
def VectorAccessor.getitem (v : VectorAccessor) (index : PyIndex) :
    Except PyErr Value × VectorAccessor :=
  if ¬ index.isInstInt then
    (Except.error (PyErr.typeError
      ("vector indices must be integers, not " ++ index.typeName)), v)
  else
    let i := index.toInt
    if i < 0 ∨ (v.length : Int) ≤ i then
      (Except.error (PyErr.indexError "vector index out of range"), v)
    else
      let a := v.table.vector v.offset + i * (v.stride : Int)
      (v.unpack a, v)

/-- `VectorAccessor.__len__(self)`: returns the cached `self._length`. -/
def VectorAccessor.pyLen (v : VectorAccessor) : Nat :=
  v.length

/-- `StructVectorAccessor.__init__(table, offset, stride, struct_class)`:
calls the base constructor and stores `_struct_class`. -/
def StructVectorAccessor.init (table : Table) (offset : Int) (stride : Nat)
    (struct_class : Nat) : VectorAccessor × List TableCall :=
  VectorAccessor.init table offset stride (Variant.structV struct_class)

/-- `SimpleVectorAccessor.__init__(table, offset, flags)`: calls the base
constructor with `flags.bytewidth` as the stride and stores `_flags`. -/
def SimpleVectorAccessor.init (table : Table) (offset : Int) (flags : Flags) :
    VectorAccessor × List TableCall :=
  VectorAccessor.init table offset flags.bytewidth (Variant.simple flags)

/-- `StringVectorAccessor.__init__(self, table, offset, stride)`: its body is
`super(SimpleVectorAccessor, self).__init__(table, offset, stride)`.  Here
`self` is a `StringVectorAccessor`, which is a sibling of
`SimpleVectorAccessor`, not an instance or subtype of it, so CPython's
`super(type, obj)` check fails and the constructor raises `TypeError` before
any table read; no accessor object is ever produced. -/
def StringVectorAccessor.init (_table : Table) (_offset : Int)
    (_stride : Nat) : Except PyErr (VectorAccessor × List TableCall) :=
  Except.error (PyErr.typeError
    "super(type, obj): obj must be an instance or subtype of type")

/-- State of a `VectorIterator` object: slots `_vec`, `_next_index`,
`_length`. -/
structure VectorIterator where
  vec : VectorAccessor
  next_index : Nat
  length : Nat

/-- `VectorIterator.__init__(self, vector_accessor)`: assigns
`self._vec = vector_accessor` and `self._next_index = 0`, then evaluates
`self._length = len(vector)`.  The name `vector` is bound nowhere — the
parameter is `vector_accessor` and the module defines no global `vector` —
so evaluating it raises `NameError` and the half-built object is discarded:
construction never returns an iterator. -/
def VectorIterator.init (_vector_accessor : VectorAccessor) :
    Except PyErr VectorIterator :=
  Except.error (PyErr.nameError "vector")

/-- `VectorAccessor.__iter__(self)`: returns `VectorIterator(self)`. -/
def VectorAccessor.iter (v : VectorAccessor) : Except PyErr VectorIterator :=
  VectorIterator.init v

/-- `VectorIterator.next(self)`: raises `StopIteration` when
`self._next_index >= self._length`; otherwise evaluates
`item = self._vec[self._next_index]` (whose exception, if any, propagates
before the cursor increment), then `self._next_index += 1` and returns
`item`. -/
def VectorIterator.next (it : VectorIterator) :
    Except PyErr Value × VectorIterator :=
  if it.length ≤ it.next_index then
    (Except.error PyErr.stopIteration, it)
  else
    match it.vec.getitem (PyIndex.int it.next_index) with
    | (Except.error e, v1) =>
        (Except.error e, { it with vec := v1 })
    | (Except.ok item, v1) =>
        (Except.ok item,
         { vec := v1, next_index := it.next_index + 1, length := it.length })

/-- The iterator state after `n` further `next` calls (results discarded). -/
def VectorIterator.stepN (it : VectorIterator) : Nat → VectorIterator
  | 0 => it
  | n + 1 => (VectorIterator.stepN it n).next.2

/-- Drive one iterator alone for `n` `next` calls, collecting each call's
result and the final state. -/
def runSolo (it : VectorIterator) : Nat → List (Except PyErr Value) × VectorIterator
  | 0 => ([], it)
  | n + 1 =>
      let p := it.next
      let q := runSolo p.2 n
      (p.1 :: q.1, q.2)

/-- Drive two iterators under an interleaving schedule (`true` steps the
first, `false` the second), collecting each iterator's own result sequence
and both final states. -/
def runPair (a b : VectorIterator) :
    List Bool → List (Except PyErr Value) × List (Except PyErr Value) ×
      VectorIterator × VectorIterator
  | [] => ([], [], a, b)
  | true :: s =>
      let p := a.next
      let q := runPair p.2 b s
      (p.1 :: q.1, q.2.1, q.2.2.1, q.2.2.2)
  | false :: s =>
      let p := b.next
      let q := runPair a p.2 s
      (q.1, p.1 :: q.2.1, q.2.2.1, q.2.2.2)

/-- Number of `true` entries in a schedule (steps given to the first
iterator). -/
def countT : List Bool → Nat
  | [] => 0
  | true :: s => countT s + 1
  | false :: s => countT s

/-- Number of `false` entries in a schedule (steps given to the second
iterator). -/
def countF : List Bool → Nat
  | [] => 0
  | true :: s => countF s
  | false :: s => countF s + 1

/-- Count the elements successfully yielded by an iterator before its first
raised exception (`StopIteration` included), with fuel bounding the loop. -/
def drainLoop : Nat → VectorIterator → Nat
  | 0, _ => 0
  | fuel + 1, it =>
      match it.next with
      | (Except.error _, _) => 0
      | (Except.ok _, it2) => drainLoop fuel it2 + 1

/-- Construct a fresh iterator via `__iter__` and drain it: the element
count if iteration runs to a normal or error stop, or the exception raised
while constructing the iterator. -/
def VectorAccessor.drainCount (v : VectorAccessor) : Except PyErr Nat :=
  match v.iter with
  | Except.error e => Except.error e
  | Except.ok it => Except.ok (drainLoop it.length it)

/-- Sample table from the spec's scalar scenario: a vector of three unsigned
32-bit integers `[10, 20, 30]` at stride 4, based at byte address 0. -/
def exTable : Table :=
  { vectorLen := fun _ => 3
    vector := fun _ => 0
    get := fun _ off => if off = 0 then 10 else if off = 4 then 20
      else if off = 8 then 30 else 0
    string_at := fun _ => ""
    bytes := [] }

/-- Flags for an unsigned 32-bit scalar element. -/
def uint32Flags : Flags :=
  { bytewidth := 4 }

/-- Accessor over the sample three-element scalar vector. -/
def exAccessor : VectorAccessor :=
  (SimpleVectorAccessor.init exTable 0 uint32Flags).1

/-- Sample table whose vector field is empty (`VectorLen` returns 0). -/
def exEmptyTable : Table :=
  { vectorLen := fun _ => 0
    vector := fun _ => 0
    get := fun _ _ => 0
    string_at := fun _ => ""
    bytes := [] }

/-- Accessor over the empty sample vector. -/
def exEmptyAccessor : VectorAccessor :=
  (SimpleVectorAccessor.init exEmptyTable 0 uint32Flags).1

/-- An iterator state over the sample accessor that has reached exhaustion
(cursor equal to length). -/
def exExhaustedIter : VectorIterator :=
  { vec := exAccessor, next_index := 3, length := 3 }

/-- `__getitem__` assigns to no attribute: the accessor object it returns is
the one it received, in every branch. -/
theorem getitem_snd (v : VectorAccessor) (idx : PyIndex) :
    (v.getitem idx).2 = v := by
  unfold VectorAccessor.getitem
  split
  · rfl
  · dsimp only
    split
    · rfl
    · rfl

/-- `next` never touches the accessor: the iterator state it returns holds
the same `_vec` it started with. -/
theorem next_preserves_vec (it : VectorIterator) : it.next.2.vec = it.vec := by
  unfold VectorIterator.next
  split
  · rfl
  · split
    · rename_i e v1 h
      have hv := congrArg Prod.snd h
      rw [getitem_snd] at hv
      exact hv.symm
    · rename_i item v1 h
      have hv := congrArg Prod.snd h
      rw [getitem_snd] at hv
      exact hv.symm

/-- Interleaving two iterators under any schedule gives each iterator the
same result sequence and final state as running it alone for its own number
of steps. -/
theorem runPair_eq_runSolo (sched : List Bool) : ∀ a b : VectorIterator,
    runPair a b sched =
      ((runSolo a (countT sched)).1, (runSolo b (countF sched)).1,
       (runSolo a (countT sched)).2, (runSolo b (countF sched)).2) := by
  induction sched with
  | nil => intro a b; rfl
  | cons hd s ih =>
      intro a b
      cases hd
      · show runPair a b (false :: s) = _
        simp only [runPair, countT, countF, runSolo, ih a b.next.2]
      · show runPair a b (true :: s) = _
        simp only [runPair, countT, countF, runSolo, ih a.next.2 b]

/-- C1: for an integer index inside `[0, length)`, `__getitem__` returns the
variant's `_unpack` applied to exactly `table.Vector(offset) + i * stride`;
for an integer index outside that range it raises `IndexError`; in both
cases the accessor object (table, offset, length, stride) is returned
unchanged. -/
theorem getitem_int_contract (v : VectorAccessor) (i : Int) :
    (0 ≤ i ∧ i < (v.length : Int) →
      v.getitem (PyIndex.int i) =
        (v.unpack (v.table.vector v.offset + i * (v.stride : Int)), v)) ∧
    (i < 0 ∨ (v.length : Int) ≤ i →
      v.getitem (PyIndex.int i) =
        (Except.error (PyErr.indexError "vector index out of range"), v)) := by
  constructor
  · rintro ⟨h0, h1⟩
    have hc : ¬(i < 0 ∨ (v.length : Int) ≤ i) := by
      push_neg
      exact ⟨h0, h1⟩
    simp [VectorAccessor.getitem, PyIndex.isInstInt, PyIndex.toInt, hc]
  · intro h
    simp [VectorAccessor.getitem, PyIndex.isInstInt, PyIndex.toInt, h]

/-- Witness for C1 on the spec's scalar scenario: index 1 is decoded from
`base + 1 * 4`, index 3 raises `IndexError`. -/
theorem getitem_int_contract_witness :
    exAccessor.getitem (PyIndex.int 1) =
      (exAccessor.unpack
        (exAccessor.table.vector exAccessor.offset + 1 * (exAccessor.stride : Int)),
       exAccessor) ∧
    exAccessor.getitem (PyIndex.int 3) =
      (Except.error (PyErr.indexError "vector index out of range"), exAccessor) :=
  ⟨(getitem_int_contract exAccessor 1).1 ⟨by decide, by decide⟩,
   (getitem_int_contract exAccessor 3).2 (Or.inr (by decide))⟩

/-- C2: requesting an iterator through `__iter__` always raises `NameError`
(the constructor evaluates the unbound name `vector`), so no iterator over
any accessor is ever constructed. -/
theorem iterate_raises_nameError (v : VectorAccessor) :
    v.iter = Except.error (PyErr.nameError "vector") ∧
    ∀ it : VectorIterator, v.iter ≠ Except.ok it :=
  ⟨rfl, fun _ h => Except.noConfusion h⟩

/-- C3 (code bug): on the three-element scalar vector, `__len__` reports 3,
but constructing a fresh iterator and draining it raises `NameError` instead
of yielding any element count, so random access and iteration cannot agree. -/
theorem length_iterate_disagree :
    exAccessor.pyLen = 3 ∧
    exAccessor.drainCount = Except.error (PyErr.nameError "vector") ∧
    ∀ n : Nat, exAccessor.drainCount ≠ Except.ok n :=
  ⟨rfl, rfl, fun _ h => Except.noConfusion h⟩

/-- C4 (code bug): constructing a `StringVectorAccessor` raises `TypeError`
for every input — the constructor calls `super(SimpleVectorAccessor, self)`
with a `self` that is not a `SimpleVectorAccessor` — so construction never
succeeds and never reads `table.VectorLen(offset)`. -/
theorem string_accessor_construction_raises :
    StringVectorAccessor.init exTable 0 4 =
      Except.error (PyErr.typeError
        "super(type, obj): obj must be an instance or subtype of type") ∧
    ∀ r, StringVectorAccessor.init exTable 0 4 ≠ Except.ok r :=
  ⟨rfl, fun _ h => Except.noConfusion h⟩

/-- C5 (code bug): on an empty vector, `__len__` returns 0 and `Get(0)`
raises `IndexError` as the claim states, but `__iter__` raises `NameError`
at iterator construction instead of returning an iterator whose first
`next()` signals `StopIteration`. -/
theorem empty_vector_behavior :
    exEmptyAccessor.pyLen = 0 ∧
    exEmptyAccessor.getitem (PyIndex.int 0) =
      (Except.error (PyErr.indexError "vector index out of range"),
       exEmptyAccessor) ∧
    exEmptyAccessor.iter = Except.error (PyErr.nameError "vector") :=
  ⟨rfl, rfl, rfl⟩

/-- C6: a non-integral index raises `TypeError` with the message naming the
index's type, before any range check or table access: the result is the
same for every table and every cached length, and the accessor is returned
unchanged. -/
theorem getitem_noninteger_typeError (v : VectorAccessor) (idx : PyIndex)
    (h : idx.isInstInt = false) :
    v.getitem idx =
      (Except.error (PyErr.typeError
        ("vector indices must be integers, not " ++ idx.typeName)), v) ∧
    ∀ (t : Table) (L : Nat),
      ({ v with table := t, length := L } : VectorAccessor).getitem idx =
        (Except.error (PyErr.typeError
          ("vector indices must be integers, not " ++ idx.typeName)),
         { v with table := t, length := L }) := by
  constructor
  · simp [VectorAccessor.getitem, h]
  · intro t L
    simp [VectorAccessor.getitem, h]

/-- Witness for C6: a `float` index on the sample accessor raises the
`TypeError` immediately and leaves the accessor unchanged. -/
theorem getitem_noninteger_typeError_witness :
    exAccessor.getitem (PyIndex.other "float") =
      (Except.error (PyErr.typeError
        ("vector indices must be integers, not " ++
          (PyIndex.other "float").typeName)), exAccessor) :=
  (getitem_noninteger_typeError exAccessor (PyIndex.other "float") rfl).1

/-- C7: once an iterator's cursor equals its length, every further `next()`
call raises `StopIteration` and leaves the state exactly as it was — never a
different error, never a value, never a transition out of exhaustion. -/
theorem exhausted_stays_exhausted (it : VectorIterator)
    (h : it.next_index = it.length) (n : Nat) :
    it.stepN n = it ∧
    (it.stepN n).next = (Except.error PyErr.stopIteration, it) := by
  have hnext : it.next = (Except.error PyErr.stopIteration, it) := by
    simp [VectorIterator.next, h]
  have hstep : ∀ m, it.stepN m = it := by
    intro m
    induction m with
    | zero => rfl
    | succ m ih => simp [VectorIterator.stepN, ih, hnext]
  exact ⟨hstep n, by rw [hstep n, hnext]⟩

/-- Witness for C7: an exhausted iterator over the sample accessor stays
exhausted across two further `next()` calls. -/
theorem exhausted_stays_exhausted_witness :
    exExhaustedIter.stepN 2 = exExhaustedIter ∧
    (exExhaustedIter.stepN 2).next =
      (Except.error PyErr.stopIteration, exExhaustedIter) :=
  exhausted_stays_exhausted exExhaustedIter rfl 2

/-- C9: under any interleaving schedule, each of two iterators produces
exactly the result sequence and final state it would produce driven alone,
and a `next()` call never changes the accessor held in `_vec`. -/
theorem iterators_isolated (a b : VectorIterator) (sched : List Bool) :
    runPair a b sched =
      ((runSolo a (countT sched)).1, (runSolo b (countF sched)).1,
       (runSolo a (countT sched)).2, (runSolo b (countF sched)).2) ∧
    a.next.2.vec = a.vec :=
  ⟨runPair_eq_runSolo sched a b, next_preserves_vec a⟩

/-- C8: construction performs exactly one table call, `VectorLen(offset)`,
whose result is cached as `_length`; `__len__` returns that cached value,
which equals `table.VectorLen(offset)`, and does so without any table
access (its result is unchanged under replacing the table). -/
theorem init_reads_length_once (t : Table) (off : Int) (s : Nat)
    (var : Variant) :
    (VectorAccessor.init t off s var).2 = [TableCall.vectorLenCall off] ∧
    (VectorAccessor.init t off s var).1.length = t.vectorLen off ∧
    (VectorAccessor.init t off s var).1.pyLen = t.vectorLen off ∧
    ∀ t2 : Table,
      ({ (VectorAccessor.init t off s var).1 with table := t2 }
        : VectorAccessor).pyLen = (VectorAccessor.init t off s var).1.pyLen :=
  ⟨rfl, rfl, rfl, fun _ => rfl⟩

/-- C10: because `bool` is a subtype of `int`, the `isinstance` check
accepts booleans: on any accessor of length at least 2, `Get(True)` behaves
exactly as `Get(1)` and `Get(False)` exactly as `Get(0)` — each decodes the
corresponding element instead of raising the `TypeError`. -/
theorem getitem_bool_accepted (v : VectorAccessor) (h : 2 ≤ v.length) :
    v.getitem (PyIndex.bool true) = v.getitem (PyIndex.int 1) ∧
    v.getitem (PyIndex.bool false) = v.getitem (PyIndex.int 0) ∧
    v.getitem (PyIndex.bool true) =
      (v.unpack (v.table.vector v.offset + 1 * (v.stride : Int)), v) ∧
    v.getitem (PyIndex.bool false) =
      (v.unpack (v.table.vector v.offset + 0 * (v.stride : Int)), v) := by
  have h1 : ¬ v.length ≤ 1 := by omega
  have h0 : v.length ≠ 0 := by omega
  refine ⟨rfl, rfl, ?_, ?_⟩
  · simp [VectorAccessor.getitem, PyIndex.isInstInt, PyIndex.toInt, h1]
  · simp [VectorAccessor.getitem, PyIndex.isInstInt, PyIndex.toInt, h0]

/-- Witness for C10: on the sample three-element accessor, `Get(True)`
agrees with `Get(1)` and `Get(False)` with `Get(0)`. -/
theorem getitem_bool_accepted_witness :
    exAccessor.getitem (PyIndex.bool true) = exAccessor.getitem (PyIndex.int 1) ∧
    exAccessor.getitem (PyIndex.bool false) = exAccessor.getitem (PyIndex.int 0) :=
  ⟨(getitem_bool_accepted exAccessor (by decide)).1,
   (getitem_bool_accepted exAccessor (by decide)).2.1⟩
